import Mathlib

/-!
Verification of the authentication core of the MERN-Stack-Portfolio backend,
embedded from `src/server/lib/PassportSetup.js`.

The embedding models the User-Record Store explicitly (a list of records plus
a fresh-id counter and a failure flag), and each strategy callback as a pure
function returning the authentication result, the resulting store, and the
trace of store/verifier operations it performed, in order.
-/

/-- Modelled from the spec: the Credential Verifier lives in
`server/models/user.model.js`, which is not part of the analysed sources.
A stored credential is either the image of a plaintext password under the
one-way transformation applied at registration time, or a freshly generated
random value (used for federated account creation). -/
inductive Credential where
  | hashed (plain : String)
  | random (seed : Nat)
deriving DecidableEq, Repr

/-- One application account, as stored in the User-Record Store
(cf. the mongoose user model fields used by `PassportSetup.js`:
`id`, `name`, `email`, `password`, `googleId`, `githubId`). -/
structure UserRecord where
  id : Nat
  name : String
  email : Option String
  password : Credential
  googleId : Option String
  githubId : Option String
deriving DecidableEq, Repr

/-- The User-Record Store: the stored records, the next internal identifier
to assign on creation, and a flag modelling store unavailability (a broken
store makes every access reject, which the callbacks catch and pass to
`done`). -/
structure Store where
  users : List UserRecord
  nextId : Nat
  broken : Bool
deriving DecidableEq, Repr

/-- The error kinds of the authentication core (spec section 7). -/
inductive AuthError where
  | UserNotFound
  | InvalidCredentials
  | StoreError
  | ProviderError
deriving DecidableEq, Repr

/-- One store or verifier operation performed by a callback, for stating
frame conditions (which operations a flow performs). -/
inductive Op where
  | findOneByEmail (email : String)
  | findOneByGoogleId (pid : String)
  | findOneByGithubId (pid : String)
  | findByIdOp (i : Nat)
  | verifyCred (stored : Credential) (submitted : String)
  | createRecord (u : UserRecord)
deriving DecidableEq, Repr

/-- Whether an operation invokes the Credential Verifier. -/
def Op.isVerifyCred : Op → Bool
  | .verifyCred _ _ => true
  | _ => false

/-- Whether an operation mutates the store (creates a record). -/
def Op.isWrite : Op → Bool
  | .createRecord _ => true
  | _ => false

/-- Modelled from the spec: `user.verifyPassword(password)` from
`user.model.js` (not in the analysed sources). True iff the submitted
plaintext, after the one-way transformation used at registration time,
matches the stored credential; no side effects. -/
def verifyPassword (stored : Credential) (submitted : String) : Bool :=
  stored == Credential.hashed submitted

/-- Modelled from the spec: `User.prototype.generateRandomPassword()` from
`user.model.js` (not in the analysed sources). Produces a freshly generated
random credential not derived from any user-supplied plaintext. -/
def generateRandomPassword (seed : Nat) : Credential :=
  Credential.random seed

/-- `User.findOne({ email })`: first stored record with the given email,
or a store failure. -/
def findByEmail (db : Store) (email : String) :
    Except AuthError (Option UserRecord) :=
  if db.broken then .error .StoreError
  else .ok (db.users.find? (fun u => u.email == some email))

/-- `User.findById(id)`: first stored record with the given internal
identifier, or a store failure. -/
def findById (db : Store) (i : Nat) : Except AuthError (Option UserRecord) :=
  if db.broken then .error .StoreError
  else .ok (db.users.find? (fun u => u.id == i))

/-- The supported federated identity providers. -/
inductive Provider where
  | google
  | github
deriving DecidableEq, Repr

/-- The provider-issued identifier stored on a record for a given provider
(`googleId` / `githubId`). -/
def providerIdOf (prov : Provider) (u : UserRecord) : Option String :=
  match prov with
  | .google => u.googleId
  | .github => u.githubId

/-- `User.findOne({ googleId })` / `User.findOne({ githubId })`. -/
def findByProviderId (prov : Provider) (db : Store) (pid : String) :
    Except AuthError (Option UserRecord) :=
  if db.broken then .error .StoreError
  else .ok (db.users.find? (fun u => providerIdOf prov u == some pid))

/-- The trace entry for the provider-id lookup of a federated flow. -/
def findOp (prov : Provider) (pid : String) : Op :=
  match prov with
  | .google => .findOneByGoogleId pid
  | .github => .findOneByGithubId pid

/-- The fields handed to `User.create` when synthesizing a record. -/
structure NewUserFields where
  name : String
  email : Option String
  password : Credential
  googleId : Option String
  githubId : Option String
deriving Repr

/-- `User.create(fields)`: assigns the next internal identifier and appends
the new record to the store. -/
def createUser (db : Store) (f : NewUserFields) : UserRecord × Store :=
  let u : UserRecord :=
    { id := db.nextId, name := f.name, email := f.email,
      password := f.password, googleId := f.googleId, githubId := f.githubId }
  (u, { users := db.users ++ [u], nextId := db.nextId + 1, broken := db.broken })

/-- The Local Strategy verify callback of `PassportSetup.js`:
look up by email; absent gives `Incorrect email` (UserNotFound);
then `user.verifyPassword(password)`; mismatch gives `Incorrect password`
(InvalidCredentials); else success with the record. A thrown store error is
passed to `done` unchanged. -/
def authenticateLocal (db : Store) (email password : String) :
    Except AuthError UserRecord × Store × List Op :=
  match findByEmail db email with
  | .error e => (.error e, db, [Op.findOneByEmail email])
  | .ok none => (.error .UserNotFound, db, [Op.findOneByEmail email])
  | .ok (some user) =>
      if verifyPassword user.password password then
        (.ok user, db,
          [Op.findOneByEmail email, Op.verifyCred user.password password])
      else
        (.error .InvalidCredentials, db,
          [Op.findOneByEmail email, Op.verifyCred user.password password])

/-- The profile attributes the two federated callbacks read from the
passport profile object: `profile.id`, `profile.displayName`,
`profile._json.name`, `profile._json.email` (possibly absent). -/
structure Profile where
  id : String
  displayName : String
  jsonName : String
  jsonEmail : Option String
deriving Repr

/-- The record fields each federated callback passes to `User.create`:
Google uses `profile._json.name` and `profile._json.email`; GitHub uses
`profile.displayName` and `profile._json.email || "unknown@example.com"`;
both set the provider identifier from `profile.id` and a freshly generated
random password. -/
def fedFields (prov : Provider) (seed : Nat) (p : Profile) : NewUserFields :=
  match prov with
  | .google =>
      { name := p.jsonName, email := p.jsonEmail,
        password := generateRandomPassword seed,
        googleId := some p.id, githubId := none }
  | .github =>
      { name := p.displayName,
        email := some (p.jsonEmail.getD "unknown@example.com"),
        password := generateRandomPassword seed,
        googleId := none, githubId := some p.id }

/-- The Google / GitHub Strategy verify callbacks of `PassportSetup.js`:
look up by provider id; if found, succeed with the stored record; if absent,
create a record from the profile fields and succeed with it. A thrown store
error is passed to `done` unchanged. -/
def authenticateFederated (prov : Provider) (db : Store) (p : Profile) :
    Except AuthError UserRecord × Store × List Op :=
  match findByProviderId prov db p.id with
  | .error e => (.error e, db, [findOp prov p.id])
  | .ok (some user) => (.ok user, db, [findOp prov p.id])
  | .ok none =>
      let created := createUser db (fedFields prov db.nextId p)
      (.ok created.1, created.2, [findOp prov p.id, Op.createRecord created.1])

/-- `passport.serializeUser`: projects the internal identifier out of the
authenticated record. Pure; cannot fail. -/
def serializeUser (u : UserRecord) : Nat :=
  u.id

/-- `passport.deserializeUser`: `User.findById(id)` and `done(null, user)`,
with a thrown store error passed to `done` unchanged. Note the callback
performs no null check on the lookup result. -/
def deserializeUser (db : Store) (i : Nat) :
    Except AuthError (Option UserRecord) :=
  match findById db i with
  | .error e => .error e
  | .ok user => .ok user

/-- A record has a usable password credential iff it stores the one-way
image of some plaintext (a random credential can never be matched by
`verifyPassword`). -/
def hasUsableCredential : Credential → Bool
  | .hashed _ => true
  | .random _ => false

/-- Spec invariant (section 3): a record has either a usable password
credential or at least one external-provider identifier (or both). -/
def recordInvariant (u : UserRecord) : Bool :=
  hasUsableCredential u.password || u.googleId.isSome || u.githubId.isSome

/- Concrete stores and profiles for witnesses. -/

/-- A locally registered user, alice. -/
def aliceRec : UserRecord :=
  { id := 1, name := "Alice", email := some "alice@example.com",
    password := Credential.hashed "pw123", googleId := none, githubId := none }

/-- A store holding only alice. -/
def db1 : Store :=
  { users := [aliceRec], nextId := 2, broken := false }

/-- A user created earlier by a Google login. -/
def carolRec : UserRecord :=
  { id := 5, name := "Carol", email := some "carol@example.com",
    password := Credential.random 3, googleId := some "g-9", githubId := none }

/-- A store holding only carol. -/
def db2 : Store :=
  { users := [carolRec], nextId := 6, broken := false }

/-- The empty, healthy store. -/
def emptyDb : Store :=
  { users := [], nextId := 0, broken := false }

/-- An unavailable store: every access fails. -/
def brokenDb : Store :=
  { users := [], nextId := 0, broken := true }

/-- A GitHub profile that supplies no email. -/
def ghProfile : Profile :=
  { id := "gh-1", displayName := "Bob", jsonName := "", jsonEmail := none }

/-- A Google profile. -/
def gProfile : Profile :=
  { id := "g-9", displayName := "C.",
    jsonName := "Carol", jsonEmail := some "carol@example.com" }

/-- Claim C1: for a user record registered in the store under a given email,
local authentication with a password that verifies against the stored
credential succeeds with that record, and with a password that does not
verify it fails with InvalidCredentials. -/
theorem local_registered_user_auth (db : Store) (email pw wrong : String)
    (u : UserRecord)
    (hfind : findByEmail db email = .ok (some u))
    (hok : verifyPassword u.password pw = true)
    (hbad : verifyPassword u.password wrong = false) :
    (authenticateLocal db email pw).1 = .ok u ∧
    (authenticateLocal db email wrong).1 = .error .InvalidCredentials := by
  constructor
  · simp [authenticateLocal, hfind, hok]
  · simp [authenticateLocal, hfind, hbad]

/-- Witness for C1 at the concrete store holding alice. -/
theorem local_registered_user_auth_witness :
    findByEmail db1 "alice@example.com" = .ok (some aliceRec) ∧
    verifyPassword aliceRec.password "pw123" = true ∧
    verifyPassword aliceRec.password "wrong" = false ∧
    ((authenticateLocal db1 "alice@example.com" "pw123").1 = .ok aliceRec ∧
     (authenticateLocal db1 "alice@example.com" "wrong").1 =
       .error .InvalidCredentials) :=
  ⟨rfl, rfl, rfl,
    local_registered_user_auth db1 "alice@example.com" "pw123" "wrong"
      aliceRec rfl rfl rfl⟩

/-- Claim C2: for an email with no record in the store, local authentication
fails with UserNotFound for any submitted password, and the Credential
Verifier is never invoked (the email lookup happens first). -/
theorem local_unknown_email (db : Store) (email pw : String)
    (hfind : findByEmail db email = .ok none) :
    (authenticateLocal db email pw).1 = .error .UserNotFound ∧
    ((authenticateLocal db email pw).2.2.all
      (fun o => !o.isVerifyCred)) = true := by
  constructor
  · simp [authenticateLocal, hfind]
  · simp [authenticateLocal, hfind, Op.isVerifyCred]

/-- Witness for C2: bob is not registered in the store holding alice. -/
theorem local_unknown_email_witness :
    findByEmail db1 "bob@example.com" = .ok none ∧
    ((authenticateLocal db1 "bob@example.com" "x").1 =
       .error .UserNotFound ∧
     ((authenticateLocal db1 "bob@example.com" "x").2.2.all
       (fun o => !o.isVerifyCred)) = true) :=
  ⟨rfl, local_unknown_email db1 "bob@example.com" "x" rfl⟩

/-- Claim C3: for a provider/providerId pair that already has a record,
federated authentication is idempotent: it returns that record, leaves the
store unchanged (so no second record is created), and a repeated call with
the same pair returns a record with the same internal identifier. -/
theorem federated_idempotent (prov : Provider) (db : Store) (p : Profile)
    (u : UserRecord)
    (hfind : findByProviderId prov db p.id = .ok (some u)) :
    (authenticateFederated prov db p).1 = .ok u ∧
    (authenticateFederated prov db p).2.1 = db ∧
    (authenticateFederated prov
       (authenticateFederated prov db p).2.1 p).1 = .ok u := by
  refine ⟨?_, ?_, ?_⟩
  · simp [authenticateFederated, hfind]
  · simp [authenticateFederated, hfind]
  · simp [authenticateFederated, hfind]

/-- Witness for C3 at the store holding carol, whose googleId is g-9. -/
theorem federated_idempotent_witness :
    findByProviderId Provider.google db2 gProfile.id = .ok (some carolRec) ∧
    ((authenticateFederated Provider.google db2 gProfile).1 = .ok carolRec ∧
     (authenticateFederated Provider.google db2 gProfile).2.1 = db2 ∧
     (authenticateFederated Provider.google
        (authenticateFederated Provider.google db2 gProfile).2.1
        gProfile).1 = .ok carolRec) :=
  ⟨rfl, federated_idempotent Provider.google db2 gProfile carolRec rfl⟩

/-- Claim C4: for a provider/providerId pair with no existing record,
federated authentication creates exactly one new record (the store grows by
exactly that record); its stored provider identifier equals the input
providerId, its name and email come from the supplied profile, and for
GitHub the email defaults to the fixed placeholder when the provider
supplies none. -/
theorem federated_creates_record (prov : Provider) (db : Store) (p : Profile)
    (hfind : findByProviderId prov db p.id = .ok none) :
    ∃ u, (authenticateFederated prov db p).1 = .ok u ∧
      (authenticateFederated prov db p).2.1.users = db.users ++ [u] ∧
      providerIdOf prov u = some p.id ∧
      u.name = (match prov with
        | .google => p.jsonName
        | .github => p.displayName) ∧
      u.email = (match prov with
        | .google => p.jsonEmail
        | .github => some (p.jsonEmail.getD "unknown@example.com")) := by
  refine ⟨(createUser db (fedFields prov db.nextId p)).1, ?_, ?_, ?_, ?_, ?_⟩
  · simp [authenticateFederated, hfind]
  · simp [authenticateFederated, hfind, createUser]
  · cases prov <;> simp [createUser, fedFields, providerIdOf]
  · cases prov <;> simp [createUser, fedFields]
  · cases prov <;> simp [createUser, fedFields]

/-- Witness for C4: a first GitHub login (profile without email) against a
store that has never seen the pair. -/
theorem federated_creates_record_witness :
    findByProviderId Provider.github db1 ghProfile.id = .ok none ∧
    (∃ u, (authenticateFederated Provider.github db1 ghProfile).1 = .ok u ∧
      (authenticateFederated Provider.github db1 ghProfile).2.1.users =
        db1.users ++ [u] ∧
      providerIdOf Provider.github u = some ghProfile.id ∧
      u.name = ghProfile.displayName ∧
      u.email = some (ghProfile.jsonEmail.getD "unknown@example.com")) :=
  ⟨rfl, federated_creates_record Provider.github db1 ghProfile rfl⟩

/-- Claim C5: round-trip law between the session serializer and
deserializer: if an id resolves successfully to a user record, serializing
that record yields the original id. -/
theorem session_roundtrip (db : Store) (i : Nat) (u : UserRecord)
    (h : deserializeUser db i = .ok (some u)) :
    serializeUser u = i := by
  unfold deserializeUser findById at h
  by_cases hb : db.broken
  · simp [hb] at h
  · simp [hb] at h
    have := List.find?_some h
    simpa [serializeUser] using this

/-- Witness for C5 at the store holding alice (id 1). -/
theorem session_roundtrip_witness :
    deserializeUser db1 1 = .ok (some aliceRec) ∧
    serializeUser aliceRec = 1 :=
  ⟨rfl, session_roundtrip db1 1 aliceRec rfl⟩

/-- Counterexample to claim C6: on the empty healthy store, resolving an
absent id returns a success carrying no user, not a UserNotFound failure. -/
theorem deserialize_missing_counterexample :
    deserializeUser emptyDb 0 = .ok none ∧
    deserializeUser emptyDb 0 ≠ .error .UserNotFound := by
  constructor
  · rfl
  · intro h
    simp [deserializeUser, findById, emptyDb] at h

/-- Claim C6 as amended: for an id with no record in the store,
fromSessionIdentity returns a success carrying no user (the deserialize
callback performs no null check), and on store failure it fails with
StoreError. -/
theorem deserialize_missing_ok_none (db : Store) (i : Nat) :
    (db.broken = false →
      (db.users.all fun u => u.id != i) = true →
      deserializeUser db i = .ok none) ∧
    (db.broken = true → deserializeUser db i = .error .StoreError) := by
  constructor
  · intro hb habs
    have hnone : db.users.find? (fun u => u.id == i) = none := by
      rw [List.find?_eq_none]
      intro x hx
      have := List.all_eq_true.mp habs x hx
      simpa using this
    simp [deserializeUser, findById, hb, hnone]
  · intro hb
    simp [deserializeUser, findById, hb]

/-- Witness for the amended C6: the empty healthy store and the broken
store. -/
theorem deserialize_missing_ok_none_witness :
    deserializeUser emptyDb 7 = .ok none ∧
    deserializeUser brokenDb 7 = .error .StoreError :=
  ⟨(deserialize_missing_ok_none emptyDb 7).1 rfl rfl,
   (deserialize_missing_ok_none brokenDb 7).2 rfl⟩

/-- Claim C7: for a provider/providerId pair whose record is found,
federated authentication returns exactly that stored record and leaves the
store (hence every field of every record) unchanged: no profile field is
refreshed. -/
theorem federated_no_refresh (prov : Provider) (db : Store) (p : Profile)
    (u : UserRecord)
    (hfind : findByProviderId prov db p.id = .ok (some u)) :
    (authenticateFederated prov db p).1 = .ok u ∧
    (authenticateFederated prov db p).2.1 = db := by
  constructor
  · simp [authenticateFederated, hfind]
  · simp [authenticateFederated, hfind]

/-- Witness for C7: a repeat Google login for carol with a profile carrying
a different display name; the stored record is returned unchanged. -/
theorem federated_no_refresh_witness :
    findByProviderId Provider.google db2 "g-9" = .ok (some carolRec) ∧
    ((authenticateFederated Provider.google db2
        { id := "g-9", displayName := "New Name",
          jsonName := "New Name", jsonEmail := some "new@example.com" }).1 =
      .ok carolRec ∧
     (authenticateFederated Provider.google db2
        { id := "g-9", displayName := "New Name",
          jsonName := "New Name", jsonEmail := some "new@example.com" }).2.1 =
      db2) :=
  ⟨rfl, federated_no_refresh Provider.google db2
    { id := "g-9", displayName := "New Name",
      jsonName := "New Name", jsonEmail := some "new@example.com" }
    carolRec rfl⟩

/-- Claim C8: when the store is unavailable, every flow (local, federated
for either provider, and session resolution) surfaces the failure unchanged
as StoreError; no catch branch swallows it or converts it into a non-error
result. -/
theorem store_failure_propagated (db : Store) (hb : db.broken = true)
    (email pw : String) (prov : Provider) (p : Profile) (i : Nat) :
    (authenticateLocal db email pw).1 = .error .StoreError ∧
    (authenticateFederated prov db p).1 = .error .StoreError ∧
    deserializeUser db i = .error .StoreError := by
  refine ⟨?_, ?_, ?_⟩
  · simp [authenticateLocal, findByEmail, hb]
  · simp [authenticateFederated, findByProviderId, hb]
  · simp [deserializeUser, findById, hb]

/-- Witness for C8 on the broken store. -/
theorem store_failure_propagated_witness :
    brokenDb.broken = true ∧
    ((authenticateLocal brokenDb "a@example.com" "pw").1 =
       .error .StoreError ∧
     (authenticateFederated Provider.github brokenDb ghProfile).1 =
       .error .StoreError ∧
     deserializeUser brokenDb 1 = .error .StoreError) :=
  ⟨rfl, store_failure_propagated brokenDb rfl "a@example.com" "pw"
    Provider.github ghProfile 1⟩

/-- Claim C9: a record created by federated authentication carries both a
provider identifier (equal to the input providerId) and a freshly generated
random password credential, which is not a usable local-login credential;
in particular the created record satisfies the invariant that a record has
a usable password credential or at least one provider identifier. -/
theorem federated_created_record_invariant (prov : Provider) (db : Store)
    (p : Profile)
    (hfind : findByProviderId prov db p.id = .ok none) :
    ∃ u, (authenticateFederated prov db p).1 = .ok u ∧
      providerIdOf prov u = some p.id ∧
      (∃ s, u.password = Credential.random s) ∧
      hasUsableCredential u.password = false ∧
      recordInvariant u = true := by
  refine ⟨(createUser db (fedFields prov db.nextId p)).1, ?_, ?_, ?_, ?_, ?_⟩
  · simp [authenticateFederated, hfind]
  · cases prov <;> simp [createUser, fedFields, providerIdOf]
  · exact ⟨db.nextId, by
      cases prov <;>
        simp [createUser, fedFields, generateRandomPassword]⟩
  · cases prov <;>
      simp [createUser, fedFields, generateRandomPassword, hasUsableCredential]
  · cases prov <;>
      simp [createUser, fedFields, recordInvariant]

/-- Witness for C9: a first Google login against the empty store. -/
theorem federated_created_record_invariant_witness :
    findByProviderId Provider.google emptyDb gProfile.id = .ok none ∧
    (∃ u, (authenticateFederated Provider.google emptyDb gProfile).1 =
        .ok u ∧
      providerIdOf Provider.google u = some gProfile.id ∧
      (∃ s, u.password = Credential.random s) ∧
      hasUsableCredential u.password = false ∧
      recordInvariant u = true) :=
  ⟨rfl, federated_created_record_invariant Provider.google emptyDb
    gProfile rfl⟩

/-- Claim C10: local authentication never mutates the store: for every
store, email and password, the resulting store equals the input store on
every path (success and all failures), and the trace of operations
performed holds only reads and credential verification, never a record
creation. -/
theorem local_leaves_store_unchanged (db : Store) (email pw : String) :
    (authenticateLocal db email pw).2.1 = db ∧
    ((authenticateLocal db email pw).2.2.all fun o => !o.isWrite) = true := by
  unfold authenticateLocal
  cases hfind : findByEmail db email with
  | error e => simp [Op.isWrite]
  | ok o =>
    cases o with
    | none => simp [Op.isWrite]
    | some user =>
      by_cases hv : verifyPassword user.password pw <;>
        simp [hv, Op.isWrite]
